import Mathlib

/-!
Verification of the mcpbr Docker-backed task execution engine and the
statistics aggregation module.

The retry/cleanup/label definitions are modelled from spec.md because the
`docker_env` module itself is not part of the provided sources (only its
tests are).  The statistics definitions are translated directly from
`src/mcpbr/statistics.py`.
-/

/-- Character-wise lowering of a string, as Python str.lower does for the
ASCII messages used by the error categorizer. -/
def strLower (s : String) : String := ⟨s.data.map Char.toLower⟩

/-- Boolean test that the character list pat is an initial segment of s. -/
def charsHavePre (pat s : List Char) : Bool :=
  match pat, s with
  | [], _ => true
  | _ :: _, [] => false
  | p :: ps, c :: cs => p == c && charsHavePre ps cs

/-- Boolean test that the character list pat occurs contiguously in s. -/
def charsHaveSub (pat s : List Char) : Bool :=
  match s with
  | [] => charsHavePre pat []
  | _ :: cs => charsHavePre pat s || charsHaveSub pat cs

/-- Python substring containment: containsSub s pat models pat in s. -/
def containsSub (s pat : String) : Bool := charsHaveSub pat.data s.data

/-- Modelled from the spec: one answer of the container runtime to a
containers.run call — a created container, an API error carrying an HTTP
status code (docker.errors.APIError with response.status_code), or an
exception of some other type (the docker_env module is not in the provided
sources; §4.1 and §7 of the spec describe this error taxonomy). -/
inductive RunOutcome where
  | success (container : Nat)
  | apiError (status : Nat) (msg : String)
  | otherError (msg : String)
deriving DecidableEq

/-- Modelled from the spec: the value create_environment's provisioning path
surfaces to its caller — the created container, or the propagated error,
which keeps the original status code and message (§4.1 step 4: the last
error is propagated, not swallowed). -/
inductive ProvisionOutcome where
  | ok (container : Nat)
  | apiErr (status : Nat) (msg : String)
  | otherErr (msg : String)
deriving DecidableEq

/-- Modelled from the spec: the observable trace of one provisioning run —
its result, how many containers.run calls were made, and the total backoff
delay in seconds slept between attempts. -/
structure RetryTrace where
  result : ProvisionOutcome
  calls : Nat
  elapsed : Nat
deriving DecidableEq

/-- Modelled from the spec: the retryable predicate is true only for
HTTP-5xx-class (server-side transient) container-runtime errors (§3
RetryPolicy, §7 error taxonomy). -/
def retryable (status : Nat) : Bool := 500 ≤ status && status < 600

/-- Modelled from the spec: the last allowed attempt — whatever the runtime
answers is surfaced as is, with one call and no further delay (§4.1 step 4:
after exhausting max attempts the last error is propagated). -/
def finalAttempt (o : RunOutcome) : RetryTrace :=
  match o with
  | .success c => { result := .ok c, calls := 1, elapsed := 0 }
  | .apiError s m => { result := .apiErr s m, calls := 1, elapsed := 0 }
  | .otherError m => { result := .otherErr m, calls := 1, elapsed := 0 }

/-- Modelled from the spec: the retry loop of the container provisioner
(§4.1).  outcomes gives the runtime's answer to the i-th call (1-based),
attempt is the 1-based number of the current attempt, remaining the number
of attempts still allowed including this one.  On success the container is
returned at once; on a retryable API error with attempts remaining the
loop sleeps base_delay * 2^(attempt-1) seconds and retries; any other
failure, or exhaustion, propagates the last error. -/
def provisionAux (outcomes : Nat → RunOutcome) (baseDelay : Nat) :
    Nat → Nat → RetryTrace
  | attempt, 0 => finalAttempt (outcomes attempt)
  | attempt, 1 => finalAttempt (outcomes attempt)
  | attempt, r + 2 =>
    match outcomes attempt with
    | .success c => { result := .ok c, calls := 1, elapsed := 0 }
    | .otherError m => { result := .otherErr m, calls := 1, elapsed := 0 }
    | .apiError s m =>
      if retryable s then
        let rest := provisionAux outcomes baseDelay (attempt + 1) (r + 1)
        { result := rest.result
          calls := rest.calls + 1
          elapsed := rest.elapsed + baseDelay * 2 ^ (attempt - 1) }
      else { result := .apiErr s m, calls := 1, elapsed := 0 }

/-- Modelled from the spec: the default retry policy — 4 total attempts
(initial + 3 retries), base delay 1 second, multiplier 2 (§3 RetryPolicy). -/
def createContainerWithRetry (outcomes : Nat → RunOutcome) : RetryTrace :=
  provisionAux outcomes 1 1 4

/-- Modelled from the spec: the runtime answer sequence for C1 — the first
n calls fail with a retryable status s, every later call succeeds. -/
def failuresThenSuccess (n : Nat) (s : Nat) (m : String) (c : Nat) :
    Nat → RunOutcome :=
  fun i => if i ≤ n then .apiError s m else .success c

/-- Modelled from the spec: an orphaned runtime resource as the cleanup
scanner sees it — its name, whether it carries the mcpbr system label, the
age in whole hours its mcpbr.timestamp label parses to (none when the
label is missing or unparsable, §4.3 and §9), and whether the runtime's
stop call on it raises (§4.3 best-effort removal). -/
structure DResource where
  name : String
  hasLabel : Bool
  ageHours : Option Nat
  stopFails : Bool
deriving DecidableEq

/-- Modelled from the spec: one invocation of the container runtime's
mutating control API made by a cleanup pass (§6: stop/remove for
containers, volumes, networks). -/
inductive RuntimeOp where
  | stopContainer (name : String)
  | removeContainer (name : String)
  | removeVolume (name : String) (force : Bool)
  | removeNetwork (name : String)
deriving DecidableEq

/-- Modelled from the spec: the retention policy (§4.3) — a resource is
eligible for removal only if it carries the system label and now minus its
timestamp label is at least retention_hours hours, unless force is set, in
which case age is ignored; an unparsable timestamp is eligible only under
force. -/
def eligibleForRemoval (force : Bool) (retentionHours : Nat) (r : DResource) : Bool :=
  r.hasLabel &&
    (force ||
      match r.ageHours with
      | some a => retentionHours ≤ a
      | none => false)

/-- Modelled from the spec: what one scan pass over one resource class
reports — removed names, the runtime calls it made, and recorded errors. -/
structure ScanResult where
  removed : List String
  ops : List RuntimeOp
  errors : List String
deriving DecidableEq

/-- Modelled from the spec: cleanup_orphaned_containers (§4.3) — filter the
listed containers by label and retention, and for each eligible one stop it
(bounded timeout) then force-remove it unless dry_run; a failing stop is
recorded but the removal is still attempted and counted. -/
def scanContainers (resources : List DResource) (dryRun force : Bool)
    (retentionHours : Nat) : ScanResult :=
  match resources with
  | [] => { removed := [], ops := [], errors := [] }
  | r :: rest =>
    let acc := scanContainers rest dryRun force retentionHours
    if eligibleForRemoval force retentionHours r then
      if dryRun then
        { removed := r.name :: acc.removed, ops := acc.ops, errors := acc.errors }
      else
        { removed := r.name :: acc.removed
          ops := .stopContainer r.name :: .removeContainer r.name :: acc.ops
          errors :=
            (if r.stopFails then ["Failed to stop container: " ++ r.name] else []) ++
              acc.errors }
    else acc

/-- Modelled from the spec: cleanup_orphaned_volumes (§4.3) — analogous to
containers; the remove call carries the force flag that controls forcible
detaching of in-use volumes. -/
def scanVolumes (resources : List DResource) (dryRun force : Bool)
    (retentionHours : Nat) : ScanResult :=
  match resources with
  | [] => { removed := [], ops := [], errors := [] }
  | r :: rest =>
    let acc := scanVolumes rest dryRun force retentionHours
    if eligibleForRemoval force retentionHours r then
      if dryRun then
        { removed := r.name :: acc.removed, ops := acc.ops, errors := acc.errors }
      else
        { removed := r.name :: acc.removed
          ops := .removeVolume r.name force :: acc.ops
          errors := acc.errors }
    else acc

/-- Modelled from the spec: the runtime's built-in networks, excluded from
removal regardless of labels (§4.3 discovery). -/
def builtinNetworks : List String := ["bridge", "host", "none"]

/-- Modelled from the spec: cleanup_orphaned_networks (§4.3) — analogous to
containers but built-in/default networks are always skipped. -/
def scanNetworks (resources : List DResource) (dryRun force : Bool)
    (retentionHours : Nat) : ScanResult :=
  match resources with
  | [] => { removed := [], ops := [], errors := [] }
  | r :: rest =>
    let acc := scanNetworks rest dryRun force retentionHours
    if eligibleForRemoval force retentionHours r && !builtinNetworks.contains r.name then
      if dryRun then
        { removed := r.name :: acc.removed, ops := acc.ops, errors := acc.errors }
      else
        { removed := r.name :: acc.removed
          ops := .removeNetwork r.name :: acc.ops
          errors := acc.errors }
    else acc

/-- Modelled from the spec: the CleanupReport value object (§3, §6). -/
structure CleanupReport where
  containers_removed : List String := []
  volumes_removed : List String := []
  networks_removed : List String := []
  temp_dirs_cleaned : Nat := 0
  errors : List String := []
deriving DecidableEq

/-- Modelled from the spec: total_removed is the sum of the three removed
lists' lengths (§3 CleanupReport invariant). -/
def CleanupReport.total_removed (r : CleanupReport) : Nat :=
  r.containers_removed.length + r.volumes_removed.length + r.networks_removed.length

/-- Modelled from the spec: the container runtime's world as one cleanup
sweep sees it — the resources of each class and whether the listing call
for each class raises (§4.3 failure isolation). -/
structure RuntimeState where
  containers : List DResource
  volumes : List DResource
  networks : List DResource
  containersListFails : Bool
  volumesListFails : Bool
  networksListFails : Bool
deriving DecidableEq

/-- Modelled from the spec: the containers.list call, which can raise. -/
def listContainers (st : RuntimeState) : Except String (List DResource) :=
  if st.containersListFails then .error "List failed" else .ok st.containers

/-- Modelled from the spec: the volumes.list call, which can raise. -/
def listVolumes (st : RuntimeState) : Except String (List DResource) :=
  if st.volumesListFails then .error "List failed" else .ok st.volumes

/-- Modelled from the spec: the networks.list call, which can raise. -/
def listNetworks (st : RuntimeState) : Except String (List DResource) :=
  if st.networksListFails then .error "List failed" else .ok st.networks

/-- Modelled from the spec: cleanup_all_resources / scan_all (§4.3) — scan
the three resource classes in turn; an exception while listing one class is
caught and recorded in the aggregate error list with a category prefix, and
scanning proceeds to the next class, so no exception propagates out. -/
def cleanup_all_resources (st : RuntimeState) (dryRun force : Bool)
    (retentionHours : Nat) : CleanupReport × List RuntimeOp :=
  let cpart :=
    match listContainers st with
    | .error e =>
      ({ removed := [], ops := [], errors := ["Container cleanup failed: " ++ e] } : ScanResult)
    | .ok rs => scanContainers rs dryRun force retentionHours
  let vpart :=
    match listVolumes st with
    | .error e =>
      ({ removed := [], ops := [], errors := ["Volume cleanup failed: " ++ e] } : ScanResult)
    | .ok rs => scanVolumes rs dryRun force retentionHours
  let npart :=
    match listNetworks st with
    | .error e =>
      ({ removed := [], ops := [], errors := ["Network cleanup failed: " ++ e] } : ScanResult)
    | .ok rs => scanNetworks rs dryRun force retentionHours
  ({ containers_removed := cpart.removed
     volumes_removed := vpart.removed
     networks_removed := npart.removed
     temp_dirs_cleaned := 0
     errors := cpart.errors ++ vpart.errors ++ npart.errors },
   cpart.ops ++ vpart.ops ++ npart.ops)

/-- Modelled from the spec: a container registered with the environment
manager, with flags saying whether the runtime's stop/remove calls on it
raise (§4.2 cleanup_all). -/
structure ManagedContainer where
  name : String
  stopFails : Bool
  removeFails : Bool
deriving DecidableEq

/-- Modelled from the spec: a volume registered with the manager. -/
structure ManagedVolume where
  name : String
  removeFails : Bool
deriving DecidableEq

/-- Modelled from the spec: a temporary workspace directory registered with
the manager. -/
structure ManagedTempDir where
  path : String
  cleanupFails : Bool
deriving DecidableEq

/-- Modelled from the spec: the environment manager's bookkeeping of the
resources it owns (§4.2); the docker_env module is not in the provided
sources, only its tests. -/
structure DockerEnvironmentManager where
  containers : List ManagedContainer
  volumes : List ManagedVolume
  tempDirs : List ManagedTempDir
deriving DecidableEq

/-- Modelled from the spec: stopping (bounded timeout) then force-removing
one registered container; either runtime call can raise. -/
def removeManagedContainer (c : ManagedContainer) : Except String Unit :=
  if c.stopFails then .error ("stop failed: " ++ c.name)
  else if c.removeFails then .error ("remove failed: " ++ c.name)
  else .ok ()

/-- Modelled from the spec: the manager's container sweep — every removal
is wrapped so one failure does not abort the rest; each failure is appended
to the error list with the descriptive prefix (§4.2). -/
def cleanupContainers : List ManagedContainer → List String × List String
  | [] => ([], [])
  | c :: rest =>
    let acc := cleanupContainers rest
    match removeManagedContainer c with
    | .ok _ => (c.name :: acc.1, acc.2)
    | .error e => (acc.1, ("Failed to remove container: " ++ e) :: acc.2)

/-- Modelled from the spec: the manager's volume sweep, wrapped the same
way. -/
def cleanupVolumes : List ManagedVolume → List String × List String
  | [] => ([], [])
  | v :: rest =>
    let acc := cleanupVolumes rest
    if v.removeFails then (acc.1, ("Failed to remove volume: " ++ v.name) :: acc.2)
    else (v.name :: acc.1, acc.2)

/-- Modelled from the spec: the manager's temp-directory sweep — recursive
delete of each registered directory, wrapped; successes are counted. -/
def cleanupTempDirs : List ManagedTempDir → Nat × List String
  | [] => (0, [])
  | d :: rest =>
    let acc := cleanupTempDirs rest
    if d.cleanupFails then (acc.1, ("Failed to clean temp directory: " ++ d.path) :: acc.2)
    else (acc.1 + 1, acc.2)

/-- Modelled from the spec: DockerEnvironmentManager.cleanup_all_sync
(§4.2) — sweep registered containers, volumes and temp directories,
collecting failures instead of raising, and drop every registered resource
from the bookkeeping so that a second call reports zero removals and zero
errors. -/
def cleanup_all_sync (m : DockerEnvironmentManager) :
    CleanupReport × DockerEnvironmentManager :=
  let cpart := cleanupContainers m.containers
  let vpart := cleanupVolumes m.volumes
  let tpart := cleanupTempDirs m.tempDirs
  ({ containers_removed := cpart.1
     volumes_removed := vpart.1
     networks_removed := []
     temp_dirs_cleaned := tpart.1
     errors := cpart.2 ++ vpart.2 ++ tpart.2 },
   { containers := [], volumes := [], tempDirs := [] })

/-- Modelled from the spec: a dynamically typed Python value as a task's
instance identifier can arrive — upstream datasets may yield numbers where
strings are expected (§6, §9). -/
inductive PyValue where
  | str (s : String)
  | int (n : Int)
deriving DecidableEq

/-- Python str() applied to the dynamic value. -/
def PyValue.toStr : PyValue → String
  | .str s => s
  | .int n => toString n

/-- Modelled from the spec: the resource label map stamped on every created
container/volume/network; the instance identifier is coerced with str() at
the boundary so every label value is a string (§3 ResourceLabels, §6 label
schema, §9). -/
def makeResourceLabels (instanceId : PyValue) (session timestamp : String) :
    List (String × PyValue) :=
  [("mcpbr", .str "true"),
   ("mcpbr.instance", .str instanceId.toStr),
   ("mcpbr.session", .str session),
   ("mcpbr.timestamp", .str timestamp)]

/-- One agent's result dictionary inside a task result, restricted to the
fields read by _calculate_tool_stats and _calculate_error_stats in
src/mcpbr/statistics.py.  A missing tool_usage or tool_failures key is the
empty list; a missing or None error entry is none.  Counts are integers,
as in the untyped JSON-derived dictionaries. -/
structure AgentData where
  tool_usage : List (String × Int)
  tool_failures : List (String × Int)
  error : Option String
deriving DecidableEq

/-- The TaskResult fields read by the statistics module (the dataclass
itself lives in the harness module, outside the provided sources): the
instance id and the optional mcp / baseline agent dictionaries. -/
structure TaskResultM where
  instance_id : String
  mcp : Option AgentData
  baseline : Option AgentData
deriving DecidableEq

/-- Lookup in a counter kept as an association list; an absent key counts
0, as for collections.Counter. -/
def counterGet (c : List (String × Int)) (k : String) : Int :=
  match c.find? (fun p => p.1 == k) with
  | some p => p.2
  | none => 0

/-- counter[k] += n on the association-list counter, keeping one entry per
key. -/
def counterAdd (c : List (String × Int)) (k : String) (n : Int) :
    List (String × Int) :=
  match c with
  | [] => [(k, n)]
  | p :: rest => if p.1 == k then (p.1, p.2 + n) :: rest else p :: counterAdd rest k n

/-- Fold a whole dictionary of counts into the counter, as the inner loops
of _calculate_tool_stats do. -/
def counterAddAll (c : List (String × Int)) (entries : List (String × Int)) :
    List (String × Int) :=
  entries.foldl (fun acc e => counterAdd acc e.1 e.2) c

/-- Nat-valued counter lookup, for the error-category counter. -/
def counterGetN (c : List (String × Nat)) (k : String) : Nat :=
  match c.find? (fun p => p.1 == k) with
  | some p => p.2
  | none => 0

/-- counter[k] += 1 on the Nat-valued association-list counter. -/
def counterIncr (c : List (String × Nat)) (k : String) : List (String × Nat) :=
  match c with
  | [] => [(k, 1)]
  | p :: rest => if p.1 == k then (p.1, p.2 + 1) :: rest else p :: counterIncr rest k

/-- Per-tool entry of ToolStatistics.per_tool, as built by
_calculate_tool_stats.  Rates are exact rationals standing for the Python
floats. -/
structure PerToolStats where
  total : Int
  succeeded : Int
  failed : Int
  failure_rate : ℚ
deriving DecidableEq

/-- The ToolStatistics fields computed by _calculate_tool_stats (the
most_used_tools / most_failed_tools top-10 lists are not needed by any
claim and are omitted). -/
structure ToolStatistics where
  total_calls : Int
  total_successes : Int
  total_failures : Int
  failure_rate : ℚ
  unique_tools_used : Nat
  avg_calls_per_task : ℚ
  per_tool : List (String × PerToolStats)
deriving DecidableEq

/-- The running accumulators of the task loop in _calculate_tool_stats:
the two counters, the two running totals, and the count of tasks that have
mcp data. -/
structure ToolAgg where
  usage : List (String × Int)
  failures : List (String × Int)
  total_calls : Int
  total_failures : Int
  task_count : Nat
deriving DecidableEq

/-- One iteration of the task loop of _calculate_tool_stats: tasks without
mcp data are skipped; otherwise the task counts and both counters are
accumulated. -/
def toolAggStep (agg : ToolAgg) (t : TaskResultM) : ToolAgg :=
  match t.mcp with
  | none => agg
  | some d =>
    { usage := counterAddAll agg.usage d.tool_usage
      failures := counterAddAll agg.failures d.tool_failures
      total_calls := agg.total_calls + (d.tool_usage.map Prod.snd).sum
      total_failures := agg.total_failures + (d.tool_failures.map Prod.snd).sum
      task_count := agg.task_count + 1 }

/-- The task loop of _calculate_tool_stats. -/
def toolAgg (results : List TaskResultM) : ToolAgg :=
  results.foldl toolAggStep { usage := [], failures := [], total_calls := 0,
                              total_failures := 0, task_count := 0 }

/-- The per-tool statistics entry of _calculate_tool_stats: total from the
usage counter, failures from the failure counter, succeeded clamped at
zero with max, and a guarded failure rate. -/
def perToolEntry (usage failures : List (String × Int)) (tool : String) :
    PerToolStats :=
  let total := counterGet usage tool
  let failed := counterGet failures tool
  { total := total
    succeeded := max (total - failed) 0
    failed := failed
    failure_rate := if total > 0 then (failed : ℚ) / (total : ℚ) else 0 }

/-- _calculate_tool_stats from src/mcpbr/statistics.py.  all_tools is the
union of the keys of the two counters (Python iterates it as a set; only
the entry list's order differs here, which no claim depends on). -/
def calculate_tool_stats (results : List TaskResultM) : ToolStatistics :=
  let agg := toolAgg results
  let allTools := ((agg.usage.map Prod.fst) ++ (agg.failures.map Prod.fst)).dedup
  { total_calls := agg.total_calls
    total_successes := agg.total_calls - agg.total_failures
    total_failures := agg.total_failures
    failure_rate :=
      if agg.total_calls > 0 then (agg.total_failures : ℚ) / (agg.total_calls : ℚ) else 0
    unique_tools_used := allTools.length
    avg_calls_per_task :=
      if agg.task_count > 0 then (agg.total_calls : ℚ) / (agg.task_count : ℚ) else 0
    per_tool := allTools.map (fun t => (t, perToolEntry agg.usage agg.failures t)) }

/-- _categorize_error from src/mcpbr/statistics.py: the message is lowered
once, then matched against the substring classes in order, mcp first. -/
def categorize_error (errorMsg : String) : String :=
  let el := strLower errorMsg
  if containsSub el "mcp" then "mcp_server"
  else if containsSub el "timeout" || containsSub el "timed out" then "timeout"
  else if containsSub el "connection" || containsSub el "network" then "network"
  else if containsSub el "permission" || containsSub el "access denied" then "permission"
  else if containsSub el "not found" || containsSub el "no such" then "not_found"
  else if containsSub el "syntax" || containsSub el "parse" then "syntax"
  else if containsSub el "memory" || containsSub el "out of memory" then "memory"
  else if containsSub el "docker" || containsSub el "container" then "docker"
  else "other"

/-- The running accumulators of the task loop in _calculate_error_stats
(sample_errors and most_common_errors are not needed by any claim and are
omitted). -/
structure ErrAgg where
  total_errors : Nat
  timeout_count : Nat
  categories : List (String × Nat)
  task_count : Nat
deriving DecidableEq

/-- One iteration of the task loop of _calculate_error_stats: tasks whose
selected agent dictionary is absent are skipped; a present task counts
toward task_count, and a truthy (non-None, non-empty) error string is
categorized, counted, and counted again as a timeout when its category is
"timeout". -/
def errAggStep (isMcp : Bool) (t : TaskResultM) (agg : ErrAgg) : ErrAgg :=
  match (if isMcp then t.mcp else t.baseline) with
  | none => agg
  | some d =>
    let agg1 := { agg with task_count := agg.task_count + 1 }
    match d.error with
    | none => agg1
    | some e =>
      if e = "" then agg1
      else
        let cat := categorize_error e
        { agg1 with
          total_errors := agg1.total_errors + 1
          categories := counterIncr agg1.categories cat
          timeout_count :=
            if cat = "timeout" then agg1.timeout_count + 1 else agg1.timeout_count }

/-- The task loop of _calculate_error_stats, head task folded in last (the
counters are order-independent in every count a claim mentions). -/
def errAgg (isMcp : Bool) : List TaskResultM → ErrAgg
  | [] => { total_errors := 0, timeout_count := 0, categories := [], task_count := 0 }
  | t :: rest => errAggStep isMcp t (errAgg isMcp rest)

/-- The ErrorStatistics fields computed by _calculate_error_stats that the
claims mention. -/
structure ErrorStatsM where
  total_errors : Nat
  timeout_count : Nat
  error_rate : ℚ
  timeout_rate : ℚ
  error_categories : List (String × Nat)
deriving DecidableEq

/-- _calculate_error_stats from src/mcpbr/statistics.py, restricted to the
fields above; both rates stay 0.0 when no task carried agent data. -/
def calculate_error_stats (results : List TaskResultM) (isMcp : Bool) : ErrorStatsM :=
  let agg := errAgg isMcp results
  { total_errors := agg.total_errors
    timeout_count := agg.timeout_count
    error_rate :=
      if agg.task_count > 0 then (agg.total_errors : ℚ) / (agg.task_count : ℚ) else 0
    timeout_rate :=
      if agg.task_count > 0 then (agg.timeout_count : ℚ) / (agg.task_count : ℚ) else 0
    error_categories := agg.categories }

/-- C1: for every sequence of n < 4 consecutive retryable (HTTP-5xx-class)
container-creation failures followed by a success, the provisioning path
makes exactly n+1 calls to the runtime's run operation, returns the
created container, and sleeps exactly base_delay * (2^n - 1) seconds of
backoff (1s, 2s, 4s, summed), hence at least that much; for n = 0 one call
is made with zero delay. -/
theorem retry_n_failures_then_success (n c : Nat) (m : String) (h : n < 4) :
    createContainerWithRetry (failuresThenSuccess n 500 m c) =
      { result := .ok c, calls := n + 1, elapsed := 2 ^ n - 1 } := by
  interval_cases n <;> rfl

/-- Witness for C1 at n = 2 retryable failures before success. -/
theorem retry_n_failures_then_success_witness :
    createContainerWithRetry (failuresThenSuccess 2 500 "500 Server Error" 7) =
      { result := .ok 7, calls := 2 + 1, elapsed := 2 ^ 2 - 1 } :=
  retry_n_failures_then_success 2 7 "500 Server Error" (by decide)

/-- C2: when every attempt fails with a retryable (5xx) runtime API error,
the provisioner stops after exactly 4 attempts (initial + 3 retries) and
propagates the last error with its original status code and message, after
the full 1+2+4 = 7 seconds of backoff. -/
theorem retry_exhausts_after_four_attempts (s : Nat) (m : String)
    (h : retryable s = true) :
    createContainerWithRetry (fun _ => .apiError s m) =
      { result := .apiErr s m, calls := 4, elapsed := 7 } := by
  simp [createContainerWithRetry, provisionAux, finalAttempt, h]

/-- Witness for C2 at status 500: four calls, and the surfaced message
still contains the string 500. -/
theorem retry_exhausts_after_four_attempts_witness :
    createContainerWithRetry (fun _ => .apiError 500 "500 Server Error") =
      { result := .apiErr 500 "500 Server Error", calls := 4, elapsed := 7 } ∧
    containsSub "500 Server Error" "500" = true :=
  ⟨retry_exhausts_after_four_attempts 500 "500 Server Error" (by decide), by decide⟩

/-- C3: a non-retryable failure of the first attempt — a runtime API error
with a non-5xx status, or an exception of any other type — is propagated
immediately: exactly one call, no backoff delay, whatever the retry
policy's max attempts and base delay are. -/
theorem no_retry_on_permanent_error (maxAttempts baseDelay s : Nat) (m em : String)
    (h : retryable s = false) :
    provisionAux (fun _ => .apiError s m) baseDelay 1 maxAttempts =
      { result := .apiErr s m, calls := 1, elapsed := 0 } ∧
    provisionAux (fun _ => .otherError em) baseDelay 1 maxAttempts =
      { result := .otherErr em, calls := 1, elapsed := 0 } := by
  constructor <;>
    (rcases maxAttempts with _ | _ | r <;> simp [provisionAux, finalAttempt, h])

/-- Witness for C3: a 404 API error and a ValueError-like exception, under
the default policy. -/
theorem no_retry_on_permanent_error_witness :
    provisionAux (fun _ => .apiError 404 "404 Not Found") 1 1 4 =
      { result := .apiErr 404 "404 Not Found", calls := 1, elapsed := 0 } ∧
    provisionAux (fun _ => .otherError "Invalid argument") 1 1 4 =
      { result := .otherErr "Invalid argument", calls := 1, elapsed := 0 } :=
  no_retry_on_permanent_error 4 1 404 "404 Not Found" "Invalid argument" (by decide)

/-- C7: cleanup_all on the environment manager is idempotent — a second
call, on the manager state the first call leaves behind, reports zero
removed containers, volumes and networks, zero temp directories cleaned,
and no errors, and (being total) raises nothing. -/
theorem cleanup_all_sync_idempotent (m : DockerEnvironmentManager) :
    (cleanup_all_sync ((cleanup_all_sync m).2)).1 =
      { containers_removed := [], volumes_removed := [], networks_removed := [],
        temp_dirs_cleaned := 0, errors := [] } := rfl

/-- C8: for every task instance identifier — string or numeric — the
resource label map carries all four mcpbr keys in order, every label value
is a string, and a numeric identifier 12345 yields the instance label
string 12345, never the integer. -/
theorem labels_always_strings (instanceId : PyValue) (session timestamp : String) :
    (makeResourceLabels instanceId session timestamp).map Prod.fst =
      ["mcpbr", "mcpbr.instance", "mcpbr.session", "mcpbr.timestamp"] ∧
    ((makeResourceLabels instanceId session timestamp).all fun p =>
        match p.2 with
        | .str _ => true
        | .int _ => false) = true ∧
    (makeResourceLabels (.int 12345) session timestamp).get? 1 =
      some ("mcpbr.instance", .str "12345") :=
  ⟨rfl, rfl, rfl⟩

theorem scanContainers_removed (rs : List DResource) (dryRun force : Bool) (H : Nat) :
    (scanContainers rs dryRun force H).removed =
      (rs.filter (eligibleForRemoval force H)).map DResource.name := by
  induction rs with
  | nil => rfl
  | cons r rest ih =>
    by_cases h : eligibleForRemoval force H r = true <;>
      cases dryRun <;> simp [scanContainers, List.filter_cons, h, ih]

theorem scanContainers_ops (rs : List DResource) (dryRun force : Bool) (H : Nat) :
    (scanContainers rs dryRun force H).ops =
      if dryRun then []
      else
        (rs.filter (eligibleForRemoval force H)).flatMap fun r =>
          [RuntimeOp.stopContainer r.name, RuntimeOp.removeContainer r.name] := by
  cases dryRun <;> induction rs with
  | nil => rfl
  | cons r rest ih =>
    by_cases h : eligibleForRemoval force H r = true <;>
      simp_all [scanContainers, List.filter_cons, h]

theorem scanContainers_untouched (rs : List DResource) (force : Bool) (H : Nat)
    (n : String) (hn : n ∉ (scanContainers rs false force H).removed) :
    RuntimeOp.stopContainer n ∉ (scanContainers rs false force H).ops ∧
    RuntimeOp.removeContainer n ∉ (scanContainers rs false force H).ops := by
  rw [scanContainers_removed] at hn
  rw [scanContainers_ops]
  simp only [List.mem_map, not_exists] at hn
  simp only [Bool.false_eq_true, if_false, List.mem_flatMap]
  constructor <;>
    · rintro ⟨r, hr, hop⟩
      simp at hop
      exact hn r ⟨hr, hop.symm⟩

theorem scanVolumes_removed (rs : List DResource) (dryRun force : Bool) (H : Nat) :
    (scanVolumes rs dryRun force H).removed =
      (rs.filter (eligibleForRemoval force H)).map DResource.name := by
  induction rs with
  | nil => rfl
  | cons r rest ih =>
    by_cases h : eligibleForRemoval force H r = true <;>
      cases dryRun <;> simp [scanVolumes, List.filter_cons, h, ih]

theorem scanVolumes_ops (rs : List DResource) (dryRun force : Bool) (H : Nat) :
    (scanVolumes rs dryRun force H).ops =
      if dryRun then []
      else (rs.filter (eligibleForRemoval force H)).map fun r =>
        RuntimeOp.removeVolume r.name force := by
  cases dryRun <;> induction rs with
  | nil => rfl
  | cons r rest ih =>
    by_cases h : eligibleForRemoval force H r = true <;>
      simp_all [scanVolumes, List.filter_cons, h]

theorem scanNetworks_removed (rs : List DResource) (dryRun force : Bool) (H : Nat) :
    (scanNetworks rs dryRun force H).removed =
      (rs.filter fun r =>
        eligibleForRemoval force H r && !builtinNetworks.contains r.name).map
        DResource.name := by
  induction rs with
  | nil => rfl
  | cons r rest ih =>
    by_cases h : eligibleForRemoval force H r = true ∧ r.name ∉ builtinNetworks <;>
      cases dryRun <;>
      simp [scanNetworks, List.filter_cons, h, ih, Bool.and_eq_true, Bool.not_eq_true',
        decide_eq_true_eq]

theorem scanNetworks_ops (rs : List DResource) (dryRun force : Bool) (H : Nat) :
    (scanNetworks rs dryRun force H).ops =
      if dryRun then []
      else
        (rs.filter fun r =>
          eligibleForRemoval force H r && !builtinNetworks.contains r.name).map fun r =>
          RuntimeOp.removeNetwork r.name := by
  cases dryRun <;> induction rs with
  | nil => rfl
  | cons r rest ih =>
    by_cases h : eligibleForRemoval force H r = true ∧ r.name ∉ builtinNetworks <;>
      simp [scanNetworks, List.filter_cons, h, ih, Bool.and_eq_true, Bool.not_eq_true',
        decide_eq_true_eq]

/-- C4: with dry_run and force both false, scan_containers removes exactly
the labeled containers whose timestamp label is at least retention_hours
hours old — their names in listing order — and a name outside that removal
set is never the target of a stop or remove call; with force true, age and
retention_hours are ignored and every labeled container is removed. -/
theorem scan_containers_retention (rs : List DResource) (H Hf : Nat) (n : String)
    (hn : n ∉ (scanContainers rs false false H).removed) :
    ((scanContainers rs false false H).removed =
      (rs.filter fun r =>
        r.hasLabel &&
          match r.ageHours with
          | some a => H ≤ a
          | none => false).map DResource.name) ∧
    ((scanContainers rs false true Hf).removed =
      (rs.filter fun r => r.hasLabel).map DResource.name) ∧
    RuntimeOp.stopContainer n ∉ (scanContainers rs false false H).ops ∧
    RuntimeOp.removeContainer n ∉ (scanContainers rs false false H).ops := by
  have hpred : ∀ r ∈ rs, eligibleForRemoval false H r =
      (r.hasLabel &&
        match r.ageHours with
        | some a => decide (H ≤ a)
        | none => false) := fun r _ => by simp [eligibleForRemoval]
  have hforce : ∀ r ∈ rs, eligibleForRemoval true Hf r = r.hasLabel :=
    fun r _ => by simp [eligibleForRemoval]
  refine ⟨?_, ?_, (scanContainers_untouched rs false H n hn).1,
    (scanContainers_untouched rs false H n hn).2⟩
  · rw [scanContainers_removed, List.filter_congr hpred]
  · rw [scanContainers_removed, List.filter_congr hforce]

/-- Witness for C4: of a recent and a 48-hour-old labeled container, a
24-hour retention sweep removes only the old one and never touches the
recent one. -/
theorem scan_containers_retention_witness :
    (scanContainers [⟨"recent-container", true, some 0, false⟩,
        ⟨"old-container", true, some 48, false⟩] false false 24).removed =
      ["old-container"] ∧
    RuntimeOp.stopContainer "recent-container" ∉
      (scanContainers [⟨"recent-container", true, some 0, false⟩,
        ⟨"old-container", true, some 48, false⟩] false false 24).ops := by
  have h := scan_containers_retention
    [⟨"recent-container", true, some 0, false⟩, ⟨"old-container", true, some 48, false⟩]
    24 999 "recent-container" (by decide)
  exact ⟨by decide, h.2.2.1⟩

/-- C5: a dry-run cleanup scan makes no stop or remove call on any
container, volume or network — for each scanner and for the aggregate
sweep the op list is empty — yet it reports exactly the removal sets that
the same invocation with dry_run false would remove. -/
theorem dry_run_reports_without_removing (st : RuntimeState) (rs : List DResource)
    (force : Bool) (H : Nat) :
    (cleanup_all_resources st true force H).2 = [] ∧
    ((cleanup_all_resources st true force H).1.containers_removed =
      (cleanup_all_resources st false force H).1.containers_removed) ∧
    ((cleanup_all_resources st true force H).1.volumes_removed =
      (cleanup_all_resources st false force H).1.volumes_removed) ∧
    ((cleanup_all_resources st true force H).1.networks_removed =
      (cleanup_all_resources st false force H).1.networks_removed) ∧
    (scanContainers rs true force H).ops = [] ∧
    ((scanContainers rs true force H).removed = (scanContainers rs false force H).removed) ∧
    (scanVolumes rs true force H).ops = [] ∧
    ((scanVolumes rs true force H).removed = (scanVolumes rs false force H).removed) ∧
    (scanNetworks rs true force H).ops = [] ∧
    ((scanNetworks rs true force H).removed = (scanNetworks rs false force H).removed) := by
  obtain ⟨cs, vs, ns, cf, vf, nf⟩ := st
  cases cf <;> cases vf <;> cases nf <;>
    simp [cleanup_all_resources, listContainers, listVolumes, listNetworks,
      scanContainers_removed, scanVolumes_removed, scanNetworks_removed,
      scanContainers_ops, scanVolumes_ops, scanNetworks_ops]

/-- C6: failures inside the cleanup path never escape: an exception while
listing containers in cleanup_all_resources is caught and recorded in the
report's error list with its category prefix while volumes and networks
are still scanned, and a stop or remove failure on one registered
container in the manager's cleanup_all_sync is recorded with the
Failed-to-remove prefix while every other registered resource is still
processed. -/
theorem cleanup_failures_recorded (st : RuntimeState) (dryRun force : Bool) (H : Nat)
    (m : DockerEnvironmentManager) (c : ManagedContainer)
    (hc : c.stopFails = true ∨ c.removeFails = true) :
    ("Container cleanup failed: List failed" ∈
      (cleanup_all_resources { st with containersListFails := true }
        dryRun force H).1.errors) ∧
    ((cleanup_all_resources { st with containersListFails := true }
        dryRun force H).1.volumes_removed =
      (cleanup_all_resources st dryRun force H).1.volumes_removed) ∧
    ((cleanup_all_resources { st with containersListFails := true }
        dryRun force H).1.networks_removed =
      (cleanup_all_resources st dryRun force H).1.networks_removed) ∧
    ((cleanup_all_sync { m with containers := c :: m.containers }).1.errors =
      ("Failed to remove container: " ++
        (if c.stopFails then "stop failed: " ++ c.name else "remove failed: " ++ c.name)) ::
        (cleanup_all_sync m).1.errors) ∧
    ((cleanup_all_sync { m with containers := c :: m.containers }).1.containers_removed =
      (cleanup_all_sync m).1.containers_removed) ∧
    ((cleanup_all_sync { m with containers := c :: m.containers }).1.volumes_removed =
      (cleanup_all_sync m).1.volumes_removed) ∧
    ((cleanup_all_sync { m with containers := c :: m.containers }).1.temp_dirs_cleaned =
      (cleanup_all_sync m).1.temp_dirs_cleaned) := by
  refine ⟨?_, rfl, rfl, ?_, ?_, rfl, rfl⟩
  · simp [cleanup_all_resources, listContainers]
  · rcases hc with h | h
    · simp [cleanup_all_sync, cleanupContainers, removeManagedContainer, h]
    · by_cases hs : c.stopFails = true
      · simp [cleanup_all_sync, cleanupContainers, removeManagedContainer, h, hs]
      · simp [cleanup_all_sync, cleanupContainers, removeManagedContainer, h, hs]
  · rcases hc with h | h
    · simp [cleanup_all_sync, cleanupContainers, removeManagedContainer, h]
    · by_cases hs : c.stopFails = true
      · simp [cleanup_all_sync, cleanupContainers, removeManagedContainer, h, hs]
      · simp [cleanup_all_sync, cleanupContainers, removeManagedContainer, h, hs]

/-- Witness for C6: with container listing broken the sweep still returns
a report carrying the prefixed error, and a manager holding one container
whose stop call fails records the prefixed failure without aborting. -/
theorem cleanup_failures_recorded_witness :
    ("Container cleanup failed: List failed" ∈
      (cleanup_all_resources ⟨[], [], [], true, false, false⟩ false false 24).1.errors) ∧
    ((cleanup_all_resources ⟨[], [], [], true, false, false⟩ false false 24).1.volumes_removed =
      (cleanup_all_resources ⟨[], [], [], false, false, false⟩ false false 24).1.volumes_removed) ∧
    ((cleanup_all_resources ⟨[], [], [], true, false, false⟩ false false 24).1.networks_removed =
      (cleanup_all_resources ⟨[], [], [], false, false, false⟩ false false 24).1.networks_removed) ∧
    ((cleanup_all_sync ⟨[⟨"failing-container", true, false⟩], [], []⟩).1.errors =
      "Failed to remove container: stop failed: failing-container" ::
        (cleanup_all_sync ⟨[], [], []⟩).1.errors) ∧
    ((cleanup_all_sync ⟨[⟨"failing-container", true, false⟩], [], []⟩).1.containers_removed =
      (cleanup_all_sync ⟨[], [], []⟩).1.containers_removed) ∧
    ((cleanup_all_sync ⟨[⟨"failing-container", true, false⟩], [], []⟩).1.volumes_removed =
      (cleanup_all_sync ⟨[], [], []⟩).1.volumes_removed) ∧
    ((cleanup_all_sync ⟨[⟨"failing-container", true, false⟩], [], []⟩).1.temp_dirs_cleaned =
      (cleanup_all_sync ⟨[], [], []⟩).1.temp_dirs_cleaned) :=
  cleanup_failures_recorded ⟨[], [], [], false, false, false⟩ false false 24
    ⟨[], [], []⟩ ⟨"failing-container", true, false⟩ (Or.inl rfl)

/-- C9: the tool statistics are total — every per-tool succeeded count is
the clamped difference max(total - failed, 0), hence never negative even
when reported failures exceed reported calls, and every ratio field
(per-tool failure_rate, overall failure_rate, avg_calls_per_task) is 0
rather than a division error whenever its denominator is not positive. -/
theorem tool_stats_totality (results : List TaskResultM) :
    ((calculate_tool_stats results).per_tool.all fun p =>
      (p.2.succeeded == max (p.2.total - p.2.failed) 0) &&
        decide (0 ≤ p.2.succeeded) &&
        ((p.2.failure_rate == 0) || decide (0 < p.2.total))) = true ∧
    ((calculate_tool_stats results).failure_rate = 0 ∨
      0 < (calculate_tool_stats results).total_calls) ∧
    ((calculate_tool_stats results).avg_calls_per_task = 0 ∨
      0 < (toolAgg results).task_count) := by
  refine ⟨?_, ?_, ?_⟩
  · rw [List.all_eq_true]
    intro p hp
    simp only [calculate_tool_stats, List.mem_map] at hp
    obtain ⟨t, ht, rfl⟩ := hp
    by_cases h : (0:Int) < counterGet (toolAgg results).usage t <;>
      simp [perToolEntry, gt_iff_lt, h, le_max_right]
  · by_cases h : (0:Int) < (toolAgg results).total_calls
    · right
      simpa [calculate_tool_stats] using h
    · left
      simp [calculate_tool_stats, gt_iff_lt, h]
  · by_cases h : 0 < (toolAgg results).task_count
    · right
      exact h
    · left
      simp [calculate_tool_stats, gt_iff_lt, h]

theorem counterGetN_cons_ne (k1 k : String) (v : Nat) (l : List (String × Nat))
    (h : ¬k1 = k) : counterGetN ((k1, v) :: l) k = counterGetN l k := by
  have hb : (k1 == k) = false := beq_eq_false_iff_ne.mpr h
  simp [counterGetN, List.find?, hb]

theorem counterGetN_incr (c : List (String × Nat)) (k : String) :
    counterGetN (counterIncr c k) k = counterGetN c k + 1 := by
  induction c with
  | nil => simp [counterIncr, counterGetN, List.find?]
  | cons p rest ih =>
    rcases p with ⟨k1, v⟩
    by_cases h : k1 = k
    · subst h
      simp [counterIncr, counterGetN, List.find?]
    · have hb : (k1 == k) = false := beq_eq_false_iff_ne.mpr h
      simp only [counterIncr, hb, Bool.false_eq_true, if_false]
      rw [counterGetN_cons_ne _ _ _ _ h, counterGetN_cons_ne _ _ _ _ h, ih]

/-- C10: the error categorizer checks the substring mcp before every other
category, so any message containing mcp case-insensitively is categorized
mcp_server even when it also mentions a timeout; in the error statistics
such an error increments the mcp_server category count and leaves
timeout_count — and hence the timeout_rate numerator — unchanged. -/
theorem mcp_category_overrides_timeout (msg : String) (results : List TaskResultM)
    (t : TaskResultM) (d : AgentData) (e : String) (isMcp : Bool)
    (hmsg : containsSub (strLower msg) "mcp" = true)
    (ht : (if isMcp then t.mcp else t.baseline) = some d)
    (he : d.error = some e) (hne : ¬(e = ""))
    (hmcp : containsSub (strLower e) "mcp" = true) :
    categorize_error msg = "mcp_server" ∧
    (calculate_error_stats (t :: results) isMcp).timeout_count =
      (calculate_error_stats results isMcp).timeout_count ∧
    counterGetN (errAgg isMcp (t :: results)).categories "mcp_server" =
      counterGetN (errAgg isMcp results).categories "mcp_server" + 1 := by
  have hcat : ∀ s, containsSub (strLower s) "mcp" = true →
      categorize_error s = "mcp_server" := by
    intro s hs
    simp [categorize_error, hs]
  refine ⟨hcat msg hmsg, ?_, ?_⟩
  · simp [calculate_error_stats, errAgg, errAggStep, ht, he, hne, hcat e hmcp]
  · simp [errAgg, errAggStep, ht, he, hne, hcat e hmcp, counterGetN_incr]

/-- Witness for C10: a message naming MCP that also says timed out is
categorized mcp_server, and a task failing with it adds nothing to
timeout_count while bumping the mcp_server category. -/
theorem mcp_category_overrides_timeout_witness :
    categorize_error "MCP server timed out" = "mcp_server" ∧
    (calculate_error_stats
        [⟨"task-1", some ⟨[], [], some "MCP server timed out"⟩, none⟩] true).timeout_count =
      (calculate_error_stats [] true).timeout_count ∧
    counterGetN
        (errAgg true [⟨"task-1", some ⟨[], [], some "MCP server timed out"⟩, none⟩]).categories
        "mcp_server" =
      counterGetN (errAgg true []).categories "mcp_server" + 1 :=
  mcp_category_overrides_timeout "MCP server timed out" []
    ⟨"task-1", some ⟨[], [], some "MCP server timed out"⟩, none⟩
    ⟨[], [], some "MCP server timed out"⟩ "MCP server timed out" true
    (by decide) rfl rfl (by decide) (by decide)
